import Mathlib

/-!
Shallow embedding of `libredex/ReferencedState.h`: a per-element
reachability and keep-rule record consisting of boolean flags plus a
rule-touch counter (`std::atomic<unsigned int>` in the source, modelled
as a natural number counting modulo 2^32).  Mutating member functions
become state-passing functions `ReferencedState → ReferencedState`,
const member functions become pure predicates.
-/

namespace RedexRefState

/-- Modulus of the C++ `unsigned int` backing `m_keep_count`. -/
def uintMod : Nat := 2 ^ 32

/-- The fields of `class ReferencedState`, with the C++ default member
initializers (`false` everywhere except `m_computed{true}`, counter 0). -/
structure ReferencedState where
  m_bytype : Bool := false
  m_bystring : Bool := false
  m_computed : Bool := true
  m_keep : Bool := false
  m_assumenosideeffects : Bool := false
  m_blanket_keepnames : Bool := false
  m_whyareyoukeeping : Bool := false
  m_set_allowshrinking : Bool := false
  m_unset_allowshrinking : Bool := false
  m_set_allowobfuscation : Bool := false
  m_unset_allowobfuscation : Bool := false
  m_keep_name : Bool := false
  m_keep_count : Nat := 0
  deriving DecidableEq, Repr

/-- Source: `ReferencedState() = default;` — the default-constructed record. -/
def init : ReferencedState := {}

/-- Source: `allowshrinking() const { return !m_unset_allowshrinking && m_set_allowshrinking; }` -/
def allowshrinking (s : ReferencedState) : Bool :=
  !s.m_unset_allowshrinking && s.m_set_allowshrinking

/-- Source: `allowobfuscation() const { return !m_unset_allowobfuscation && m_set_allowobfuscation; }` -/
def allowobfuscation (s : ReferencedState) : Bool :=
  !s.m_unset_allowobfuscation && s.m_set_allowobfuscation

/-- Source: `can_delete() const { return !m_bytype && (!m_keep || allowshrinking()); }` -/
def can_delete (s : ReferencedState) : Bool :=
  !s.m_bytype && (!s.m_keep || allowshrinking s)

/-- Source: `can_rename()` from the source: `!m_keep_name && !m_bystring &&
(!m_keep || allowobfuscation()) && !allowshrinking()`. -/
def can_rename (s : ReferencedState) : Bool :=
  !s.m_keep_name && !s.m_bystring && (!s.m_keep || allowobfuscation s) &&
    !allowshrinking s

/-- Source: `keep() const { return m_keep; }` -/
def keep (s : ReferencedState) : Bool := s.m_keep

/-- Source: `assumenosideeffects() const { return m_assumenosideeffects; }` -/
def assumenosideeffects (s : ReferencedState) : Bool := s.m_assumenosideeffects

/-- Source: `is_blanket_names_kept() const { return m_blanket_keepnames && m_keep_count == 1; }` -/
def is_blanket_names_kept (s : ReferencedState) : Bool :=
  s.m_blanket_keepnames && decide (s.m_keep_count = 1)

/-- Source: `report_whyareyoukeeping() const { return m_whyareyoukeeping; }` -/
def report_whyareyoukeeping (s : ReferencedState) : Bool := s.m_whyareyoukeeping

/-- Source: `is_referenced_by_string() const { return m_bystring; }` -/
def is_referenced_by_string (s : ReferencedState) : Bool := s.m_bystring

/-- Source: `is_referenced_by_type() const { return m_bytype; }` -/
def is_referenced_by_type (s : ReferencedState) : Bool := s.m_bytype

/-- Source: `ref_by_string(bool from_code)`: sets `m_bytype` and `m_bystring`,
and updates `m_computed := m_computed && from_code`. -/
def ref_by_string (from_code : Bool) (s : ReferencedState) : ReferencedState :=
  { s with m_bytype := true, m_bystring := true,
           m_computed := s.m_computed && from_code }

/-- Source: `ref_by_type() { m_bytype = true; }` -/
def ref_by_type (s : ReferencedState) : ReferencedState :=
  { s with m_bytype := true }

/-- Source: `clear_if_compute()`: if `m_computed`, reset `m_bytype` and `m_bystring`. -/
def clear_if_compute (s : ReferencedState) : ReferencedState :=
  if s.m_computed then { s with m_bytype := false, m_bystring := false } else s

/-- Source: `set_keep() { m_keep = true; }` -/
def set_keep (s : ReferencedState) : ReferencedState := { s with m_keep := true }

/-- Source: `set_keep_name() { m_keep_name = true; }` -/
def set_keep_name (s : ReferencedState) : ReferencedState :=
  { s with m_keep_name := true }

/-- Source: `set_allowshrinking() { m_set_allowshrinking = true; }` -/
def set_allowshrinking (s : ReferencedState) : ReferencedState :=
  { s with m_set_allowshrinking := true }

/-- Source: `unset_allowshrinking() { m_unset_allowshrinking = true; }` -/
def unset_allowshrinking (s : ReferencedState) : ReferencedState :=
  { s with m_unset_allowshrinking := true }

/-- Source: `set_allowobfuscation() { m_set_allowobfuscation = true; }` -/
def set_allowobfuscation (s : ReferencedState) : ReferencedState :=
  { s with m_set_allowobfuscation := true }

/-- Source: `unset_allowobfuscation() { m_unset_allowobfuscation = true; }` -/
def unset_allowobfuscation (s : ReferencedState) : ReferencedState :=
  { s with m_unset_allowobfuscation := true }

/-- Source: `set_assumenosideeffects() { m_assumenosideeffects = true; }` -/
def set_assumenosideeffects (s : ReferencedState) : ReferencedState :=
  { s with m_assumenosideeffects := true }

/-- Source: `set_blanket_keepnames() { m_blanket_keepnames = true; }` -/
def set_blanket_keepnames (s : ReferencedState) : ReferencedState :=
  { s with m_blanket_keepnames := true }

/-- Source: `increment_keep_count() { m_keep_count++; }` — `unsigned int`
increment, wrapping modulo 2^32. -/
def increment_keep_count (s : ReferencedState) : ReferencedState :=
  { s with m_keep_count := (s.m_keep_count + 1) % uintMod }

/-- Source: `set_whyareyoukeeping() { m_whyareyoukeeping = true; }` -/
def set_whyareyoukeeping (s : ReferencedState) : ReferencedState :=
  { s with m_whyareyoukeeping := true }

/-- Source: `operator=(const ReferencedState& other)`: every flag is copied by
value and the counter is copied via `other.m_keep_count.load()` into the
target record.  The target's previous contents are fully overwritten. -/
def copyAssign (_target source : ReferencedState) : ReferencedState :=
  { m_bytype := source.m_bytype
    m_bystring := source.m_bystring
    m_computed := source.m_computed
    m_keep := source.m_keep
    m_assumenosideeffects := source.m_assumenosideeffects
    m_blanket_keepnames := source.m_blanket_keepnames
    m_whyareyoukeeping := source.m_whyareyoukeeping
    m_set_allowshrinking := source.m_set_allowshrinking
    m_unset_allowshrinking := source.m_unset_allowshrinking
    m_set_allowobfuscation := source.m_set_allowobfuscation
    m_unset_allowobfuscation := source.m_unset_allowobfuscation
    m_keep_name := source.m_keep_name
    m_keep_count := source.m_keep_count }

/-- One call to a mutating member function of `ReferencedState`. -/
inductive Op where
  | refByType
  | refByString (from_code : Bool)
  | clearIfCompute
  | setKeep
  | setKeepName
  | setAllowshrinking
  | unsetAllowshrinking
  | setAllowobfuscation
  | unsetAllowobfuscation
  | setAssumenosideeffects
  | setBlanketKeepnames
  | incrementKeepCount
  | setWhyareyoukeeping
  deriving DecidableEq, Repr

/-- Dispatch one call to the corresponding state transformer. -/
def applyOp : Op → ReferencedState → ReferencedState
  | .refByType, s => ref_by_type s
  | .refByString b, s => ref_by_string b s
  | .clearIfCompute, s => clear_if_compute s
  | .setKeep, s => set_keep s
  | .setKeepName, s => set_keep_name s
  | .setAllowshrinking, s => set_allowshrinking s
  | .unsetAllowshrinking, s => unset_allowshrinking s
  | .setAllowobfuscation, s => set_allowobfuscation s
  | .unsetAllowobfuscation, s => unset_allowobfuscation s
  | .setAssumenosideeffects, s => set_assumenosideeffects s
  | .setBlanketKeepnames, s => set_blanket_keepnames s
  | .incrementKeepCount, s => increment_keep_count s
  | .setWhyareyoukeeping, s => set_whyareyoukeeping s

/-- Run a sequence of calls left to right. -/
def applyOps (ops : List Op) (s : ReferencedState) : ReferencedState :=
  ops.foldl (fun t op => applyOp op t) s

/-- The four keep-modifier calls (the shrinking and obfuscation pairs). -/
def isModifierOp : Op → Bool
  | .setAllowshrinking => true
  | .unsetAllowshrinking => true
  | .setAllowobfuscation => true
  | .unsetAllowobfuscation => true
  | _ => false

/-! Projection lemmas: `clear_if_compute` touches only the two reference
flags, every other field is preserved in both branches of its `if`. -/

@[simp] lemma clear_m_computed (s : ReferencedState) :
    (clear_if_compute s).m_computed = s.m_computed := by
  unfold clear_if_compute; split <;> rfl

@[simp] lemma clear_m_keep (s : ReferencedState) :
    (clear_if_compute s).m_keep = s.m_keep := by
  unfold clear_if_compute; split <;> rfl

@[simp] lemma clear_m_keep_name (s : ReferencedState) :
    (clear_if_compute s).m_keep_name = s.m_keep_name := by
  unfold clear_if_compute; split <;> rfl

@[simp] lemma clear_m_assumenosideeffects (s : ReferencedState) :
    (clear_if_compute s).m_assumenosideeffects = s.m_assumenosideeffects := by
  unfold clear_if_compute; split <;> rfl

@[simp] lemma clear_m_blanket_keepnames (s : ReferencedState) :
    (clear_if_compute s).m_blanket_keepnames = s.m_blanket_keepnames := by
  unfold clear_if_compute; split <;> rfl

@[simp] lemma clear_m_whyareyoukeeping (s : ReferencedState) :
    (clear_if_compute s).m_whyareyoukeeping = s.m_whyareyoukeeping := by
  unfold clear_if_compute; split <;> rfl

@[simp] lemma clear_m_set_allowshrinking (s : ReferencedState) :
    (clear_if_compute s).m_set_allowshrinking = s.m_set_allowshrinking := by
  unfold clear_if_compute; split <;> rfl

@[simp] lemma clear_m_unset_allowshrinking (s : ReferencedState) :
    (clear_if_compute s).m_unset_allowshrinking = s.m_unset_allowshrinking := by
  unfold clear_if_compute; split <;> rfl

@[simp] lemma clear_m_set_allowobfuscation (s : ReferencedState) :
    (clear_if_compute s).m_set_allowobfuscation = s.m_set_allowobfuscation := by
  unfold clear_if_compute; split <;> rfl

@[simp] lemma clear_m_unset_allowobfuscation (s : ReferencedState) :
    (clear_if_compute s).m_unset_allowobfuscation = s.m_unset_allowobfuscation := by
  unfold clear_if_compute; split <;> rfl

@[simp] lemma clear_m_keep_count (s : ReferencedState) :
    (clear_if_compute s).m_keep_count = s.m_keep_count := by
  unfold clear_if_compute; split <;> rfl

/-! Characterizations of the write-once flags over call sequences: each
of the four modifier bits and the blanket flag is raised exactly by its
own setter and cleared by nothing. -/

lemma applyOp_set_allowshrinking (op : Op) (s : ReferencedState) :
    ((applyOp op s).m_set_allowshrinking = true ↔
      s.m_set_allowshrinking = true ∨ op = Op.setAllowshrinking) := by
  cases op <;>
    simp [applyOp, ref_by_type, ref_by_string, set_keep, set_keep_name,
      set_allowshrinking, unset_allowshrinking, set_allowobfuscation,
      unset_allowobfuscation, set_assumenosideeffects,
      set_blanket_keepnames, increment_keep_count, set_whyareyoukeeping]

lemma applyOps_set_allowshrinking (ops : List Op) : ∀ s : ReferencedState,
    ((applyOps ops s).m_set_allowshrinking = true ↔
      s.m_set_allowshrinking = true ∨ Op.setAllowshrinking ∈ ops) := by
  induction ops with
  | nil => intro s; simp [applyOps]
  | cons op rest ih =>
      intro s
      show ((applyOps rest (applyOp op s)).m_set_allowshrinking = true ↔ _)
      rw [ih, applyOp_set_allowshrinking, List.mem_cons, or_assoc,
        @eq_comm _ Op.setAllowshrinking op]

lemma applyOp_unset_allowshrinking (op : Op) (s : ReferencedState) :
    ((applyOp op s).m_unset_allowshrinking = true ↔
      s.m_unset_allowshrinking = true ∨ op = Op.unsetAllowshrinking) := by
  cases op <;>
    simp [applyOp, ref_by_type, ref_by_string, set_keep, set_keep_name,
      set_allowshrinking, unset_allowshrinking, set_allowobfuscation,
      unset_allowobfuscation, set_assumenosideeffects,
      set_blanket_keepnames, increment_keep_count, set_whyareyoukeeping]

lemma applyOps_unset_allowshrinking (ops : List Op) : ∀ s : ReferencedState,
    ((applyOps ops s).m_unset_allowshrinking = true ↔
      s.m_unset_allowshrinking = true ∨ Op.unsetAllowshrinking ∈ ops) := by
  induction ops with
  | nil => intro s; simp [applyOps]
  | cons op rest ih =>
      intro s
      show ((applyOps rest (applyOp op s)).m_unset_allowshrinking = true ↔ _)
      rw [ih, applyOp_unset_allowshrinking, List.mem_cons, or_assoc,
        @eq_comm _ Op.unsetAllowshrinking op]

lemma applyOp_set_allowobfuscation (op : Op) (s : ReferencedState) :
    ((applyOp op s).m_set_allowobfuscation = true ↔
      s.m_set_allowobfuscation = true ∨ op = Op.setAllowobfuscation) := by
  cases op <;>
    simp [applyOp, ref_by_type, ref_by_string, set_keep, set_keep_name,
      set_allowshrinking, unset_allowshrinking, set_allowobfuscation,
      unset_allowobfuscation, set_assumenosideeffects,
      set_blanket_keepnames, increment_keep_count, set_whyareyoukeeping]

lemma applyOps_set_allowobfuscation (ops : List Op) : ∀ s : ReferencedState,
    ((applyOps ops s).m_set_allowobfuscation = true ↔
      s.m_set_allowobfuscation = true ∨ Op.setAllowobfuscation ∈ ops) := by
  induction ops with
  | nil => intro s; simp [applyOps]
  | cons op rest ih =>
      intro s
      show ((applyOps rest (applyOp op s)).m_set_allowobfuscation = true ↔ _)
      rw [ih, applyOp_set_allowobfuscation, List.mem_cons, or_assoc,
        @eq_comm _ Op.setAllowobfuscation op]

lemma applyOp_unset_allowobfuscation (op : Op) (s : ReferencedState) :
    ((applyOp op s).m_unset_allowobfuscation = true ↔
      s.m_unset_allowobfuscation = true ∨ op = Op.unsetAllowobfuscation) := by
  cases op <;>
    simp [applyOp, ref_by_type, ref_by_string, set_keep, set_keep_name,
      set_allowshrinking, unset_allowshrinking, set_allowobfuscation,
      unset_allowobfuscation, set_assumenosideeffects,
      set_blanket_keepnames, increment_keep_count, set_whyareyoukeeping]

lemma applyOps_unset_allowobfuscation (ops : List Op) : ∀ s : ReferencedState,
    ((applyOps ops s).m_unset_allowobfuscation = true ↔
      s.m_unset_allowobfuscation = true ∨ Op.unsetAllowobfuscation ∈ ops) := by
  induction ops with
  | nil => intro s; simp [applyOps]
  | cons op rest ih =>
      intro s
      show ((applyOps rest (applyOp op s)).m_unset_allowobfuscation = true ↔ _)
      rw [ih, applyOp_unset_allowobfuscation, List.mem_cons, or_assoc,
        @eq_comm _ Op.unsetAllowobfuscation op]

lemma applyOp_blanket_keepnames (op : Op) (s : ReferencedState) :
    ((applyOp op s).m_blanket_keepnames = true ↔
      s.m_blanket_keepnames = true ∨ op = Op.setBlanketKeepnames) := by
  cases op <;>
    simp [applyOp, ref_by_type, ref_by_string, set_keep, set_keep_name,
      set_allowshrinking, unset_allowshrinking, set_allowobfuscation,
      unset_allowobfuscation, set_assumenosideeffects,
      set_blanket_keepnames, increment_keep_count, set_whyareyoukeeping]

lemma applyOps_blanket_keepnames (ops : List Op) : ∀ s : ReferencedState,
    ((applyOps ops s).m_blanket_keepnames = true ↔
      s.m_blanket_keepnames = true ∨ Op.setBlanketKeepnames ∈ ops) := by
  induction ops with
  | nil => intro s; simp [applyOps]
  | cons op rest ih =>
      intro s
      show ((applyOps rest (applyOp op s)).m_blanket_keepnames = true ↔ _)
      rw [ih, applyOp_blanket_keepnames, List.mem_cons, or_assoc,
        @eq_comm _ Op.setBlanketKeepnames op]

/-- Any two keep-modifier calls commute: each one only sets one of four
distinct write-once bits. -/
lemma applyOp_modifier_comm (a b : Op) (s : ReferencedState)
    (ha : isModifierOp a = true) (hb : isModifierOp b = true) :
    applyOp a (applyOp b s) = applyOp b (applyOp a s) := by
  cases s
  cases a <;> simp [isModifierOp] at ha <;>
    cases b <;> simp [isModifierOp] at hb <;> rfl

/-- A keep-modifier call is idempotent. -/
lemma applyOp_modifier_idem (op : Op) (s : ReferencedState)
    (h : isModifierOp op = true) :
    applyOp op (applyOp op s) = applyOp op s := by
  cases op <;> simp [isModifierOp] at h <;> (cases s; rfl)

/-- Sequences of keep-modifier calls are permutation invariant. -/
lemma applyOps_modifier_perm {l l' : List Op} (h : l.Perm l') :
    (∀ op ∈ l, isModifierOp op = true) →
    ∀ s : ReferencedState, applyOps l s = applyOps l' s := by
  induction h with
  | nil => intro _ s; rfl
  | cons x _ ih =>
      intro hmod s
      exact ih (fun op hop => hmod op (List.mem_cons_of_mem x hop)) (applyOp x s)
  | swap x y l =>
      intro hmod s
      show applyOps l (applyOp x (applyOp y s)) =
        applyOps l (applyOp y (applyOp x s))
      rw [applyOp_modifier_comm x y s
        (hmod x (by simp)) (hmod y (by simp))]
  | trans h1 _ ih1 ih2 =>
      intro hmod s
      exact (ih1 hmod s).trans
        (ih2 (fun op hop => hmod op (h1.mem_iff.mpr hop)) s)

/-- C3: over any call sequence on a fresh record, `allowshrinking()` is
true iff `set_allowshrinking()` occurs and `unset_allowshrinking()` does
not (likewise for the obfuscation pair); restricted to modifier calls
the merge is permutation invariant (commutative and associative) and
idempotent, with the unset call dominating. -/
theorem modifier_merge_spec (ops : List Op) :
    (allowshrinking (applyOps ops init) = true ↔
      Op.setAllowshrinking ∈ ops ∧ Op.unsetAllowshrinking ∉ ops)
    ∧ (allowobfuscation (applyOps ops init) = true ↔
      Op.setAllowobfuscation ∈ ops ∧ Op.unsetAllowobfuscation ∉ ops)
    ∧ (∀ ops' : List Op, (∀ op ∈ ops, isModifierOp op = true) →
        ops.Perm ops' → applyOps ops init = applyOps ops' init)
    ∧ (∀ op : Op, isModifierOp op = true →
        applyOps (op :: op :: ops) init = applyOps (op :: ops) init) := by
  refine ⟨?_, ?_, ?_, ?_⟩
  · have hset : ((applyOps ops init).m_set_allowshrinking = true ↔
        Op.setAllowshrinking ∈ ops) := by
      simpa [init] using applyOps_set_allowshrinking ops init
    have hunset : ((applyOps ops init).m_unset_allowshrinking = true ↔
        Op.unsetAllowshrinking ∈ ops) := by
      simpa [init] using applyOps_unset_allowshrinking ops init
    unfold allowshrinking
    cases hu : (applyOps ops init).m_unset_allowshrinking <;>
      cases hs : (applyOps ops init).m_set_allowshrinking <;>
      simp_all
  · have hset : ((applyOps ops init).m_set_allowobfuscation = true ↔
        Op.setAllowobfuscation ∈ ops) := by
      simpa [init] using applyOps_set_allowobfuscation ops init
    have hunset : ((applyOps ops init).m_unset_allowobfuscation = true ↔
        Op.unsetAllowobfuscation ∈ ops) := by
      simpa [init] using applyOps_unset_allowobfuscation ops init
    unfold allowobfuscation
    cases hu : (applyOps ops init).m_unset_allowobfuscation <;>
      cases hs : (applyOps ops init).m_set_allowobfuscation <;>
      simp_all
  · intro ops' hmod hperm
    exact applyOps_modifier_perm hperm hmod init
  · intro op hop
    show applyOps (op :: ops) (applyOp op init) = applyOps ops (applyOp op init)
    show applyOps ops (applyOp op (applyOp op init)) = _
    rw [applyOp_modifier_idem op init hop]

/-- Witness for C3: unset dominates in either order, a lone set call
enables shrinking, and a duplicated set call collapses. -/
theorem modifier_merge_spec_witness :
    applyOps [Op.setAllowshrinking, Op.unsetAllowshrinking] init
      = applyOps [Op.unsetAllowshrinking, Op.setAllowshrinking] init
    ∧ allowshrinking (applyOps [Op.setAllowshrinking] init) = true
    ∧ applyOps [Op.setAllowshrinking, Op.setAllowshrinking] init
      = applyOps [Op.setAllowshrinking] init :=
  ⟨(modifier_merge_spec [Op.setAllowshrinking, Op.unsetAllowshrinking]).2.2.1
      [Op.unsetAllowshrinking, Op.setAllowshrinking] (by decide)
      (List.Perm.swap Op.unsetAllowshrinking Op.setAllowshrinking []),
   (modifier_merge_spec [Op.setAllowshrinking]).1.mpr ⟨by decide, by decide⟩,
   (modifier_merge_spec []).2.2.2 Op.setAllowshrinking rfl⟩

/-- No single call can turn `m_computed` from false back to true:
`ref_by_string` only ANDs it and every other call leaves it alone. -/
lemma applyOp_computed_mono (op : Op) (s : ReferencedState)
    (h : s.m_computed = false) : (applyOp op s).m_computed = false := by
  cases op <;>
    simp [applyOp, ref_by_type, ref_by_string, set_keep, set_keep_name,
      set_allowshrinking, unset_allowshrinking, set_allowobfuscation,
      unset_allowobfuscation, set_assumenosideeffects,
      set_blanket_keepnames, increment_keep_count, set_whyareyoukeeping, h]

lemma applyOps_computed_mono (ops : List Op) : ∀ s : ReferencedState,
    s.m_computed = false → (applyOps ops s).m_computed = false := by
  induction ops with
  | nil => intro s h; exact h
  | cons op rest ih =>
      intro s h
      exact ih (applyOp op s) (applyOp_computed_mono op s h)

/-- C4: `computed` is monotone non-increasing:
`record_reference_by_string(from_code=false)` always clears it,
`record_reference_by_string(from_code=true)` leaves it unchanged, and
once false no sequence of calls ever makes it true again. -/
theorem computed_monotone :
    (∀ s : ReferencedState, (ref_by_string false s).m_computed = false)
    ∧ (∀ s : ReferencedState, (ref_by_string true s).m_computed = s.m_computed)
    ∧ (∀ (ops : List Op) (s : ReferencedState), s.m_computed = false →
        (applyOps ops s).m_computed = false) := by
  refine ⟨?_, ?_, ?_⟩
  · intro s; simp [ref_by_string]
  · intro s; simp [ref_by_string]
  · intro ops s h; exact applyOps_computed_mono ops s h

/-- Witness for C4: clearing the flag via a non-code string reference,
then running further calls, leaves it false. -/
theorem computed_monotone_witness :
    (ref_by_string false init).m_computed = false
    ∧ (applyOps [Op.refByType, Op.refByString true, Op.clearIfCompute]
        (ref_by_string false init)).m_computed = false :=
  ⟨computed_monotone.1 init,
   computed_monotone.2.2 [Op.refByType, Op.refByString true, Op.clearIfCompute]
     (ref_by_string false init) (computed_monotone.1 init)⟩

/-- Every call preserves the invariant `referenced_by_string ⇒
referenced_by_type`. -/
lemma applyOp_string_type_inv (op : Op) (s : ReferencedState)
    (h : s.m_bystring = true → s.m_bytype = true) :
    (applyOp op s).m_bystring = true → (applyOp op s).m_bytype = true := by
  cases op <;>
    simp [applyOp, ref_by_type, ref_by_string, set_keep, set_keep_name,
      set_allowshrinking, unset_allowshrinking, set_allowobfuscation,
      unset_allowobfuscation, set_assumenosideeffects,
      set_blanket_keepnames, increment_keep_count, set_whyareyoukeeping] <;>
    first
    | exact h
    | (unfold clear_if_compute; split <;> first | simp | exact h)

lemma applyOps_string_type_inv (ops : List Op) : ∀ s : ReferencedState,
    (s.m_bystring = true → s.m_bytype = true) →
    (applyOps ops s).m_bystring = true → (applyOps ops s).m_bytype = true := by
  induction ops with
  | nil => intro s h; exact h
  | cons op rest ih =>
      intro s h
      exact ih (applyOp op s) (applyOp_string_type_inv op s h)

/-- C5: starting from a fresh record, `referenced_by_string ⇒
referenced_by_type` holds after every call sequence; `ref_by_string`
sets both flags, `ref_by_type` sets only `m_bytype`, and with
`computed` true `clear_if_compute` clears both flags together. -/
theorem bystring_implies_bytype :
    (∀ (b : Bool) (s : ReferencedState),
      (ref_by_string b s).m_bytype = true ∧ (ref_by_string b s).m_bystring = true)
    ∧ (∀ s : ReferencedState,
      (ref_by_type s).m_bytype = true ∧ (ref_by_type s).m_bystring = s.m_bystring)
    ∧ (∀ s : ReferencedState, s.m_computed = true →
      (clear_if_compute s).m_bytype = false
        ∧ (clear_if_compute s).m_bystring = false)
    ∧ (∀ ops : List Op, (applyOps ops init).m_bystring = true →
        (applyOps ops init).m_bytype = true) := by
  refine ⟨?_, ?_, ?_, ?_⟩
  · intro b s; exact ⟨rfl, rfl⟩
  · intro s; exact ⟨rfl, rfl⟩
  · intro s h; unfold clear_if_compute; rw [h]; exact ⟨rfl, rfl⟩
  · intro ops
    exact applyOps_string_type_inv ops init (by intro h; exact h)

/-- Witness for C5 at concrete call sequences. -/
theorem bystring_implies_bytype_witness :
    (applyOps [Op.refByString true] init).m_bytype = true
    ∧ (clear_if_compute init).m_bytype = false :=
  ⟨bystring_implies_bytype.2.2.2 [Op.refByString true] rfl,
   (bystring_implies_bytype.2.2.1 init rfl).1⟩

/-- C1: `can_delete()` is true iff `referenced_by_type` is false and
(`keep` is false or `allow_shrinking()` is true); in particular it is
false whenever `referenced_by_type` is true, true when both reference
and keep are absent, and true when the keep rule allows shrinking
(`set_allowshrinking` true and `unset_allowshrinking` false). -/
theorem can_delete_spec (s : ReferencedState) :
    (can_delete s = true ↔
      s.m_bytype = false ∧ (s.m_keep = false ∨ allowshrinking s = true))
    ∧ (s.m_bytype = true → can_delete s = false)
    ∧ (s.m_bytype = false → s.m_keep = false → can_delete s = true)
    ∧ (s.m_bytype = false → s.m_set_allowshrinking = true →
        s.m_unset_allowshrinking = false → can_delete s = true) := by
  obtain ⟨bt, bs, c, k, a, bl, w, sa, ua, so, uo, kn, cnt⟩ := s
  cases bt <;> cases k <;> cases sa <;> cases ua <;>
    simp [can_delete, allowshrinking]

/-- Witness for C1 at the default-constructed record. -/
theorem can_delete_spec_witness : can_delete init = true :=
  (can_delete_spec init).2.2.1 rfl rfl

/-- C2: `can_rename()` is true iff `keep_name` is false,
`referenced_by_string` is false, (`keep` is false or
`allow_obfuscation()` is true), and `allow_shrinking()` is false; and
from any state where `keep_name`, `referenced_by_string`, `keep` and
`unset_allowshrinking` are all false, calling `set_allowshrinking()`
forces `can_rename()` to false regardless of the obfuscation bits. -/
theorem can_rename_spec (s : ReferencedState) :
    (can_rename s = true ↔
      s.m_keep_name = false ∧ s.m_bystring = false
        ∧ (s.m_keep = false ∨ allowobfuscation s = true)
        ∧ allowshrinking s = false)
    ∧ (s.m_keep_name = false → s.m_bystring = false → s.m_keep = false →
        s.m_unset_allowshrinking = false →
        can_rename (set_allowshrinking s) = false) := by
  obtain ⟨bt, bs, c, k, a, bl, w, sa, ua, so, uo, kn, cnt⟩ := s
  cases kn <;> cases bs <;> cases k <;> cases sa <;> cases ua <;>
    cases so <;> cases uo <;>
    simp [can_rename, set_allowshrinking, allowobfuscation, allowshrinking]

/-- Witness for C2 at the default-constructed record. -/
theorem can_rename_spec_witness :
    can_rename (set_allowshrinking init) = false :=
  (can_rename_spec init).2 rfl rfl rfl rfl

/-- C9: `set_blanket_keepnames()` sets only the blanket flag and does
not set `keep`; after `set_blanket_keepnames()` plus exactly one
`increment_keep_count()` on a fresh record, `is_blanket_names_kept()`
is true while `keep()` is false and `can_delete()` is true. -/
theorem blanket_without_keep :
    (∀ s : ReferencedState,
      (set_blanket_keepnames s).m_keep = s.m_keep
        ∧ (set_blanket_keepnames s).m_blanket_keepnames = true)
    ∧ is_blanket_names_kept
        (applyOps [Op.setBlanketKeepnames, Op.incrementKeepCount] init) = true
    ∧ keep (applyOps [Op.setBlanketKeepnames, Op.incrementKeepCount] init) = false
    ∧ can_delete
        (applyOps [Op.setBlanketKeepnames, Op.incrementKeepCount] init) = true :=
  ⟨fun _ => ⟨rfl, rfl⟩, by decide, by decide, by decide⟩

/-- C10: a default-constructed record has every flag false, `computed`
true and counter 0, and satisfies both `can_delete()` and
`can_rename()`. -/
theorem fresh_record_deletable_renamable :
    init.m_bytype = false ∧ init.m_bystring = false
    ∧ init.m_computed = true ∧ init.m_keep = false
    ∧ init.m_assumenosideeffects = false ∧ init.m_blanket_keepnames = false
    ∧ init.m_whyareyoukeeping = false ∧ init.m_set_allowshrinking = false
    ∧ init.m_unset_allowshrinking = false ∧ init.m_set_allowobfuscation = false
    ∧ init.m_unset_allowobfuscation = false ∧ init.m_keep_name = false
    ∧ init.m_keep_count = 0
    ∧ can_delete init = true ∧ can_rename init = true := by
  decide

/-- Only `increment_keep_count` touches the counter, by a wrapping
`unsigned int` increment. -/
lemma applyOp_keep_count (op : Op) (s : ReferencedState) :
    (applyOp op s).m_keep_count =
      if op = Op.incrementKeepCount then (s.m_keep_count + 1) % uintMod
      else s.m_keep_count := by
  cases op <;>
    simp [applyOp, ref_by_type, ref_by_string, set_keep, set_keep_name,
      set_allowshrinking, unset_allowshrinking, set_allowobfuscation,
      unset_allowobfuscation, set_assumenosideeffects,
      set_blanket_keepnames, increment_keep_count, set_whyareyoukeeping]

/-- The counter after a call sequence is the starting value plus the
number of `increment_keep_count` calls, modulo 2^32. -/
lemma applyOps_keep_count (ops : List Op) : ∀ s : ReferencedState,
    s.m_keep_count < uintMod →
    (applyOps ops s).m_keep_count =
      (s.m_keep_count + ops.count Op.incrementKeepCount) % uintMod := by
  induction ops with
  | nil =>
      intro s hs
      simp [applyOps, Nat.mod_eq_of_lt hs]
  | cons op rest ih =>
      intro s hs
      show (applyOps rest (applyOp op s)).m_keep_count = _
      by_cases hop : op = Op.incrementKeepCount
      · subst hop
        have hcnt : (applyOp Op.incrementKeepCount s).m_keep_count =
            (s.m_keep_count + 1) % uintMod := by
          rw [applyOp_keep_count]; simp
        have hlt : (applyOp Op.incrementKeepCount s).m_keep_count < uintMod := by
          rw [hcnt]; exact Nat.mod_lt _ (by norm_num [uintMod])
        rw [ih _ hlt, hcnt, List.count_cons_self]
        have hM : uintMod = 4294967296 := by norm_num [uintMod]
        rw [hM]
        omega
      · have hcnt : (applyOp op s).m_keep_count = s.m_keep_count := by
          rw [applyOp_keep_count, if_neg hop]
        have hne : Op.incrementKeepCount ≠ op := fun hh => hop hh.symm
        rw [ih _ (by rw [hcnt]; exact hs), hcnt, List.count_cons_of_ne hne]

/-- Counterexample to C6: the counter is a wrapping 32-bit unsigned
value, so after `set_blanket_keepnames()` and 2^32 + 1 increments the
counter reads 1 again and `is_blanket_names_kept()` is true even though
`increment_keep_count` was called far more than once. -/
theorem blanket_names_kept_counterexample :
    is_blanket_names_kept (applyOps
      (Op.setBlanketKeepnames ::
        List.replicate (uintMod + 1) Op.incrementKeepCount) init) = true
    ∧ (Op.setBlanketKeepnames ::
        List.replicate (uintMod + 1) Op.incrementKeepCount).count
          Op.incrementKeepCount ≠ 1 := by
  have hlist : (Op.setBlanketKeepnames ::
      List.replicate (uintMod + 1) Op.incrementKeepCount).count
        Op.incrementKeepCount = uintMod + 1 := by
    rw [List.count_cons_of_ne (by decide), List.count_replicate_self]
  constructor
  · have hcount : (applyOps (Op.setBlanketKeepnames ::
        List.replicate (uintMod + 1) Op.incrementKeepCount)
          init).m_keep_count = 1 := by
      rw [applyOps_keep_count _ init (by decide), hlist]
      show (init.m_keep_count + (uintMod + 1)) % uintMod = 1
      have hM : uintMod = 4294967296 := by norm_num [uintMod]
      have h0 : init.m_keep_count = 0 := rfl
      rw [h0, hM]
    have hblanket : (applyOps (Op.setBlanketKeepnames ::
        List.replicate (uintMod + 1) Op.incrementKeepCount)
          init).m_blanket_keepnames = true :=
      (applyOps_blanket_keepnames _ init).mpr (Or.inr (by simp))
    unfold is_blanket_names_kept
    rw [hblanket, hcount]
    simp
  · rw [hlist]
    norm_num [uintMod]

/-- C6 amended: `is_blanket_names_kept()` is
`blanket_keep_names && rule_touch_count == 1`; from a fresh record it is
true iff `set_blanket_keepnames()` was called and the number of
`increment_keep_count()` calls is congruent to 1 modulo 2^32 (hence
exactly once whenever fewer than 2^32 increments occurred), and it is
false after exactly two increments. -/
theorem blanket_names_kept_amended :
    (∀ s : ReferencedState, is_blanket_names_kept s =
      (s.m_blanket_keepnames && decide (s.m_keep_count = 1)))
    ∧ (∀ ops : List Op, is_blanket_names_kept (applyOps ops init) = true ↔
        (Op.setBlanketKeepnames ∈ ops
          ∧ ops.count Op.incrementKeepCount % uintMod = 1))
    ∧ (∀ ops : List Op, ops.count Op.incrementKeepCount = 2 →
        is_blanket_names_kept (applyOps ops init) = false) := by
  have hiff : ∀ ops : List Op,
      (is_blanket_names_kept (applyOps ops init) = true ↔
        (Op.setBlanketKeepnames ∈ ops
          ∧ ops.count Op.incrementKeepCount % uintMod = 1)) := by
    intro ops
    have hcount : (applyOps ops init).m_keep_count =
        ops.count Op.incrementKeepCount % uintMod := by
      rw [applyOps_keep_count ops init (by decide)]
      have h0 : init.m_keep_count = 0 := rfl
      rw [h0, Nat.zero_add]
    have hbl : ((applyOps ops init).m_blanket_keepnames = true ↔
        Op.setBlanketKeepnames ∈ ops) := by
      simpa [init] using applyOps_blanket_keepnames ops init
    unfold is_blanket_names_kept
    rw [hcount]
    simp [Bool.and_eq_true, hbl]
  refine ⟨fun s => rfl, hiff, ?_⟩
  intro ops h2
  cases hb : is_blanket_names_kept (applyOps ops init)
  · rfl
  · exfalso
    have hmem := (hiff ops).mp hb
    rw [h2] at hmem
    have h21 : (2 : Nat) % uintMod = 1 := hmem.2
    rw [show uintMod = 4294967296 from by norm_num [uintMod]] at h21
    omega

/-- Witness for the amended C6: one increment makes the predicate true,
a second one makes it false. -/
theorem blanket_names_kept_amended_witness :
    is_blanket_names_kept
      (applyOps [Op.setBlanketKeepnames, Op.incrementKeepCount] init) = true
    ∧ is_blanket_names_kept
      (applyOps [Op.setBlanketKeepnames, Op.incrementKeepCount,
        Op.incrementKeepCount] init) = false :=
  ⟨(blanket_names_kept_amended.2.1 _).mpr ⟨by decide, by decide⟩,
   blanket_names_kept_amended.2.2 _ (by decide)⟩

/-- Counterexample to C7: `clear_if_compute` only resets the two
reference flags, so on a record carrying a keep flag the sequence
clear-then-`ref_by_type` does not reproduce the full state of a
brand-new record with `ref_by_type` applied. -/
theorem clear_then_retype_counterexample :
    (set_keep init).m_computed = true
    ∧ ref_by_type (clear_if_compute (set_keep init)) ≠ ref_by_type init := by
  decide

/-- C7 amended: when `computed` is true, `clear_if_compute` followed by
a fresh `ref_by_type` reproduces the reference-flag state (`m_bytype`,
`m_bystring`, `m_computed`) of a brand-new record with `ref_by_type`
applied, while all keep-rule fields and the counter are unchanged; when
`computed` is false, `clear_if_compute` leaves the reference flags
untouched. -/
theorem clear_then_retype_amended :
    (∀ s : ReferencedState, s.m_computed = true →
      ((ref_by_type (clear_if_compute s)).m_bytype = (ref_by_type init).m_bytype
      ∧ (ref_by_type (clear_if_compute s)).m_bystring
          = (ref_by_type init).m_bystring
      ∧ (ref_by_type (clear_if_compute s)).m_computed
          = (ref_by_type init).m_computed
      ∧ (ref_by_type (clear_if_compute s)).m_keep = s.m_keep
      ∧ (ref_by_type (clear_if_compute s)).m_assumenosideeffects
          = s.m_assumenosideeffects
      ∧ (ref_by_type (clear_if_compute s)).m_blanket_keepnames
          = s.m_blanket_keepnames
      ∧ (ref_by_type (clear_if_compute s)).m_whyareyoukeeping
          = s.m_whyareyoukeeping
      ∧ (ref_by_type (clear_if_compute s)).m_set_allowshrinking
          = s.m_set_allowshrinking
      ∧ (ref_by_type (clear_if_compute s)).m_unset_allowshrinking
          = s.m_unset_allowshrinking
      ∧ (ref_by_type (clear_if_compute s)).m_set_allowobfuscation
          = s.m_set_allowobfuscation
      ∧ (ref_by_type (clear_if_compute s)).m_unset_allowobfuscation
          = s.m_unset_allowobfuscation
      ∧ (ref_by_type (clear_if_compute s)).m_keep_name = s.m_keep_name
      ∧ (ref_by_type (clear_if_compute s)).m_keep_count = s.m_keep_count))
    ∧ (∀ s : ReferencedState, s.m_computed = false →
      (clear_if_compute s).m_bytype = s.m_bytype
        ∧ (clear_if_compute s).m_bystring = s.m_bystring) := by
  constructor
  · intro s h
    simp [clear_if_compute, ref_by_type, h, init]
  · intro s h
    simp [clear_if_compute, h]

/-- Witness for the amended C7 at concrete records. -/
theorem clear_then_retype_amended_witness :
    (ref_by_type (clear_if_compute (ref_by_string true init))).m_bytype
      = (ref_by_type init).m_bytype
    ∧ (clear_if_compute (ref_by_string false init)).m_bystring
      = (ref_by_string false init).m_bystring :=
  ⟨(clear_then_retype_amended.1 (ref_by_string true init) rfl).1,
   (clear_then_retype_amended.2 (ref_by_string false init) rfl).2⟩

/-- Two distinct records, as when an element and its duplicate each own
one; `operator=` copies the source into the copy slot. -/
structure RecordPair where
  src : ReferencedState
  cpy : ReferencedState

/-- Assignment `cpy = src` between the two records of a pair. -/
def assignCpy (p : RecordPair) : RecordPair :=
  { p with cpy := copyAssign p.cpy p.src }

/-- Increment the source record's rule-touch counter. -/
def incSrc (p : RecordPair) : RecordPair :=
  { p with src := increment_keep_count p.src }

/-- Increment the copied record's rule-touch counter. -/
def incCpy (p : RecordPair) : RecordPair :=
  { p with cpy := increment_keep_count p.cpy }

/-- Iterate an operation on a record pair. -/
def iterPair (f : RecordPair → RecordPair) : Nat → RecordPair → RecordPair
  | 0, p => p
  | n + 1, p => f (iterPair f n p)

/-- C8: `operator=` copies every flag and a snapshot of the counter by
value, so the assigned copy equals the source field for field, and any
number of subsequent increments on one record of the pair leaves the
other record untouched. -/
theorem copy_independent (p : RecordPair) (n : Nat) :
    copyAssign p.cpy p.src = p.src
    ∧ (iterPair incCpy n (assignCpy p)).src = p.src
    ∧ (iterPair incSrc n (assignCpy p)).cpy = p.src := by
  refine ⟨rfl, ?_, ?_⟩
  · induction n with
    | zero => rfl
    | succ n ih => exact ih
  · induction n with
    | zero => rfl
    | succ n ih => exact ih

end RedexRefState
